import Mathlib

set_option autoImplicit false

/-!
Shallow embedding of the abstractrepo-sqlalchemy package: the
specification-to-query translation engine (specification.py), the order
converter (order.py) and the generic CRUD repositories (repo.py), together
with a model of the backend collaborators (session, query execution) that
the package drives.  Definitions are translated from the Python source;
backend collaborator behaviour (SQL evaluation, session scoping) is modelled
from the collaborator contracts the spec states for them.
-/

namespace AbstractRepoSqlAlchemy

/-- Scalar Python values appearing as column values and comparison operands.
`none` models Python's None / SQL NULL. -/
inductive PyScalar where
  | none
  | bool (b : Bool)
  | int (n : Int)
  | str (s : String)
  deriving Repr, DecidableEq

/-- A Python value carried in `AttributeSpecification.attribute_value`: either a
scalar or an ordered sequence of scalars.  `list` models a Python `list`
(the only type `isinstance(value, list)` accepts); `tuple` models an ordered
sequence that is not a `list`. -/
inductive PyValue where
  | scalar (v : PyScalar)
  | list (xs : List PyScalar)
  | tuple (xs : List PyScalar)
  deriving Repr, DecidableEq

/-- `isinstance(value, list)` on an attribute value. -/
def PyValue.isList : PyValue → Bool
  | .list _ => true
  | _ => false

/-- The operator enumeration of the abstractrepo collaborator, plus
`unrecognized`, modelling an arbitrary non-member value passed where an
operator is expected (Python is dynamically typed; the tests pass the raw
string `UnsupportedOperator`). -/
inductive Operator where
  | E | NE | GT | LT | GTE | LTE | LIKE | ILIKE | IN | NOT_IN
  | unrecognized (descr : String)
  deriving Repr, DecidableEq

/-- Python exception kinds raised by the translation engine. -/
inductive PyError where
  | valueError (msg : String)
  | typeError (msg : String)
  | attributeError (msg : String)
  deriving Repr, DecidableEq

/-- The abstract specification tree of the abstractrepo collaborator, as
consumed by `SqlAlchemySpecificationConverter.convert`.  `other` models a
value outside the closed node-kind set (e.g. the raw dict `{}` used by the
tests), which `convert` must reject with a TypeError. -/
inductive Spec where
  | attr (attributeName : String) (attributeValue : PyValue) (op : Operator)
  | and_ (specifications : List Spec)
  | or_ (specifications : List Spec)
  | not_ (specification : Spec)
  | other (descr : String)

/-- The backend-typed specification tree produced by the converter: the
SqlAlchemyAndSpecification / SqlAlchemyOrSpecification /
SqlAlchemyNotSpecification / SqlAlchemyAttributeSpecification classes of
specification.py. -/
inductive SaSpec where
  | attr (attributeName : String) (attributeValue : PyValue) (op : Operator)
  | and_ (specifications : List SaSpec)
  | or_ (specifications : List SaSpec)
  | not_ (specification : SaSpec)

mutual

/-- `SqlAlchemySpecificationConverter.convert` (specification.py, lines
202-232): dispatch on the node kind in source order (And, Or, Not,
Attribute), recursively converting children; any other input raises
`TypeError('Unsupported specification type: ...')`. -/
def convert : Spec → Except PyError SaSpec
  | Spec.and_ specs => (convertChildren specs).map SaSpec.and_
  | Spec.or_ specs => (convertChildren specs).map SaSpec.or_
  | Spec.not_ s => (convert s).map SaSpec.not_
  | Spec.attr n v op => Except.ok (SaSpec.attr n v op)
  | Spec.other d => Except.error (PyError.typeError ("Unsupported specification type: " ++ d))

/-- The list comprehension `[self.convert(spec) for spec in
specification.specifications]`: converts children left to right,
propagating the first error. -/
def convertChildren : List Spec → Except PyError (List SaSpec)
  | [] => Except.ok []
  | s :: rest => do
      let r ← convert s
      let rs ← convertChildren rest
      pure (r :: rs)

end

/-- A SQLAlchemy column expression (SQLColumnExpression[bool]) as built by
the `is_satisfied_by` methods: comparison leaves over a resolved column name
and the caller-supplied value, combined by and_/or_/not_. -/
inductive SqlExpr where
  | eq (col : String) (v : PyValue)
  | ne (col : String) (v : PyValue)
  | gt (col : String) (v : PyValue)
  | lt (col : String) (v : PyValue)
  | ge (col : String) (v : PyValue)
  | le (col : String) (v : PyValue)
  | like (col : String) (v : PyValue)
  | ilike (col : String) (v : PyValue)
  | inSet (col : String) (vs : List PyScalar)
  | notInSet (col : String) (vs : List PyScalar)
  | and_ (es : List SqlExpr)
  | or_ (es : List SqlExpr)
  | not_ (e : SqlExpr)

/-- A db model class is modelled by the list of attribute (column) names
resolvable on it. -/
def DbModelClass := List String

/-- `SqlAlchemyAttributeSpecification._get_db_model_attr`: `getattr(model,
attr_name)`; a missing attribute raises AttributeError and must propagate. -/
def getDbModelAttr (model : List String) (attrName : String) : Except PyError String :=
  if model.contains attrName then Except.ok attrName
  else Except.error (PyError.attributeError attrName)

mutual

/-- The `is_satisfied_by` methods of specification.py: And/Or nodes evaluate
all children eagerly and combine with and_/or_; Not negates its child; an
attribute leaf resolves the column then dispatches on the operator
(lines 134-172), with IN/NOT_IN guarded by `isinstance(value, list)` and a
trailing `TypeError('Unsupported operator: ...')`. -/
def isSatisfiedBy (model : List String) : SaSpec → Except PyError SqlExpr
  | SaSpec.and_ specs => (isSatisfiedByChildren model specs).map SqlExpr.and_
  | SaSpec.or_ specs => (isSatisfiedByChildren model specs).map SqlExpr.or_
  | SaSpec.not_ s => (isSatisfiedBy model s).map SqlExpr.not_
  | SaSpec.attr name value op => do
      let modelAttr ← getDbModelAttr model name
      match op with
      | Operator.E => pure (SqlExpr.eq modelAttr value)
      | Operator.NE => pure (SqlExpr.ne modelAttr value)
      | Operator.GT => pure (SqlExpr.gt modelAttr value)
      | Operator.LT => pure (SqlExpr.lt modelAttr value)
      | Operator.GTE => pure (SqlExpr.ge modelAttr value)
      | Operator.LTE => pure (SqlExpr.le modelAttr value)
      | Operator.LIKE => pure (SqlExpr.like modelAttr value)
      | Operator.ILIKE => pure (SqlExpr.ilike modelAttr value)
      | Operator.IN =>
          match value with
          | PyValue.list xs => pure (SqlExpr.inSet modelAttr xs)
          | _ => Except.error (PyError.valueError "Attribute value must be a list")
      | Operator.NOT_IN =>
          match value with
          | PyValue.list xs => pure (SqlExpr.notInSet modelAttr xs)
          | _ => Except.error (PyError.valueError "Attribute value must be a list")
      | Operator.unrecognized d =>
          Except.error (PyError.typeError ("Unsupported operator: " ++ d))

/-- The list comprehension `[spec.is_satisfied_by(model) for spec in
self.specifications]`. -/
def isSatisfiedByChildren (model : List String) : List SaSpec → Except PyError (List SqlExpr)
  | [] => Except.ok []
  | s :: rest => do
      let e ← isSatisfiedBy model s
      let es ← isSatisfiedByChildren model rest
      pure (e :: es)

end

/-- One sort key of the abstractrepo order model: direction ASC or DESC. -/
inductive OrderDirection where
  | ASC | DESC
  deriving Repr, DecidableEq

/-- Null placement of one sort key: nulls first or last. -/
inductive NonesOrder where
  | FIRST | LAST
  deriving Repr, DecidableEq

/-- `OrderOption`: one sort key (attribute, direction, null placement); the
source's field `attribute` is a Lean keyword, hence `attrName` here. -/
structure OrderOption where
  attrName : String
  direction : OrderDirection
  nones : NonesOrder
  deriving Repr, DecidableEq

/-- A SQLAlchemy UnaryExpression as produced by
`SqlAlchemyOrderOptions._get_expression`: a column wrapped in asc()/desc()
and nulls_first()/nulls_last() markers. -/
structure SortExpr where
  column : String
  ascending : Bool
  nullsFirst : Bool
  deriving Repr, DecidableEq

/-- `SqlAlchemyOrderOptions._get_expression` (order.py, lines 22-38): resolve
the column by name, wrap in asc() for ASC or desc() otherwise, then apply
nulls_first() when nones is FIRST and nulls_last() otherwise. -/
def getExpression (item : OrderOption) (model : List String) : Except PyError SortExpr := do
  let column ← getDbModelAttr model item.attrName
  let e : SortExpr :=
    { column := column
      ascending := item.direction = OrderDirection.ASC
      nullsFirst := item.nones = NonesOrder.FIRST }
  pure e

/-- `SqlAlchemyOrderOptions.to_expression`: the list comprehension
`[self._get_expression(item, model) for item in self._options]`. -/
def toExpression (options : List OrderOption) (model : List String) :
    Except PyError (List SortExpr) :=
  options.mapM (fun item => getExpression item model)

/-- `PagingOptions` of the abstractrepo collaborator: optional limit and
offset; an absent field means no restriction. -/
structure PagingOptions where
  limit : Option Nat
  offset : Option Nat
  deriving Repr, DecidableEq

/-- The query under construction: both the synchronous `Query` object built
from `sess.query(...)` and the asynchronous `Select` statement built from
`select(...)` support the same operations (filter/where, order_by, limit,
offset), so one AST embodies both.  A fresh query selects every row of the
model's table. -/
structure Query where
  filters : List SqlExpr := []
  orderBy : List SortExpr := []
  limit : Option Nat := Option.none
  offset : Option Nat := Option.none

/-- `query.filter(condition)` / `stmt.where(condition)`: conjoin one more
predicate. -/
def Query.filter (q : Query) (condition : SqlExpr) : Query :=
  { q with filters := q.filters ++ [condition] }

/-- `query.order_by(*expressions)`: append the sort expressions. -/
def Query.orderByAppend (q : Query) (es : List SortExpr) : Query :=
  { q with orderBy := q.orderBy ++ es }

/-- `SqlAlchemyCrudRepository._apply_filter` (repo.py, lines 300-319): first
apply the backend-specific default filter hook, then, when a caller filter is
supplied, convert it, evaluate it against the db model class, and add the
resulting condition. -/
def applyFilter (defaultFilter : Query → Query) (dbModelClass : List String)
    (query : Query) (filterSpec : Option Spec) : Except PyError Query :=
  let query := defaultFilter query
  match filterSpec with
  | Option.none => Except.ok query
  | Option.some spec => do
      let condition ← convert spec >>= isSatisfiedBy dbModelClass
      pure (query.filter condition)

/-- `AsyncSqlAlchemyCrudRepository._apply_filter` (repo.py, lines 680-697):
when no caller filter is supplied, apply the default filter hook; when one is
supplied, convert and add only the caller's condition. -/
def asyncApplyFilter (defaultFilter : Query → Query) (dbModelClass : List String)
    (stmt : Query) (filterSpec : Option Spec) : Except PyError Query :=
  match filterSpec with
  | Option.none => Except.ok (defaultFilter stmt)
  | Option.some spec => do
      let condition ← convert spec >>= isSatisfiedBy dbModelClass
      pure (stmt.filter condition)

/-- `SqlAlchemyCrudRepository._apply_order` (repo.py, lines 321-335): absent
order options fall back to the default-order hook; otherwise the converted
options are turned into sort expressions and appended via order_by. -/
def applyOrder (defaultOrder : Query → Query) (dbModelClass : List String)
    (query : Query) (orderOptions : Option (List OrderOption)) : Except PyError Query :=
  match orderOptions with
  | Option.none => Except.ok (defaultOrder query)
  | Option.some opts => do
      let es ← toExpression opts dbModelClass
      pure (query.orderByAppend es)

/-- `AsyncSqlAlchemyCrudRepository._apply_order` (repo.py, lines 699-713):
textually the same pipeline on the Select statement. -/
def asyncApplyOrder (defaultOrder : Query → Query) (dbModelClass : List String)
    (stmt : Query) (orderOptions : Option (List OrderOption)) : Except PyError Query :=
  match orderOptions with
  | Option.none => Except.ok (defaultOrder stmt)
  | Option.some opts => do
      let es ← toExpression opts dbModelClass
      pure (stmt.orderByAppend es)

/-- `SqlAlchemyCrudRepository._apply_paging` (repo.py, lines 337-356): absent
paging options leave the query untouched; otherwise limit and offset are each
applied only when present. -/
def applyPaging (query : Query) (pagingOptions : Option PagingOptions) : Query :=
  match pagingOptions with
  | Option.none => query
  | Option.some p =>
      let query := match p.limit with
        | Option.some l => { query with limit := Option.some l }
        | Option.none => query
      let query := match p.offset with
        | Option.some o => { query with offset := Option.some o }
        | Option.none => query
      query

/-- `AsyncSqlAlchemyCrudRepository._apply_paging` (repo.py, lines 715-734):
textually the same logic on the Select statement. -/
def asyncApplyPaging (stmt : Query) (pagingOptions : Option PagingOptions) : Query :=
  match pagingOptions with
  | Option.none => stmt
  | Option.some p =>
      let stmt := match p.limit with
        | Option.some l => { stmt with limit := Option.some l }
        | Option.none => stmt
      let stmt := match p.offset with
        | Option.some o => { stmt with offset := Option.some o }
        | Option.none => stmt
      stmt

/-- ASCII lowercasing of one character; models Python's str.lower on the
character range the constraint markers use. -/
def charLower (c : Char) : Char :=
  if 65 <= c.toNat && c.toNat <= 90 then Char.ofNat (c.toNat + 32) else c

/-- Python's `s.lower()` (modelled on the ASCII range). -/
def strLower (s : String) : String := String.mk (s.toList.map charLower)

/-- Whether the first list is an initial segment of the second. -/
def listStartsWith : List Char → List Char → Bool
  | [], _ => true
  | _ :: _, [] => false
  | a :: as, b :: bs => a = b && listStartsWith as bs

/-- Python's `needle in haystack` on lists of characters. -/
def listContainsSub (pat : List Char) : List Char → Bool
  | [] => pat.isEmpty
  | c :: rest => listStartsWith pat (c :: rest) || listContainsSub pat rest

/-- Python's `needle in haystack` substring test on strings. -/
def strContains (haystack needle : String) : Bool :=
  listContainsSub needle.toList haystack.toList

/-- The outcome of `_check_violations` (repo.py, lines 369-386): it always
raises; this type records which exception. -/
inductive Violation where
  | unique
  | relation
  | unclassified
  deriving Repr, DecidableEq

/-- `SqlAlchemyCrudRepository._check_violations`: lowercase the backend error
detail `str(e.orig)`; markers "unique"/"duplicate" raise
UniqueViolationException, else markers "foreign"/"reference" raise
RelationViolationException, else the original IntegrityError is re-raised. -/
def checkViolations (origMsg : String) : Violation :=
  let errorMsg := strLower origMsg
  if strContains errorMsg "unique" || strContains errorMsg "duplicate" then
    Violation.unique
  else if strContains errorMsg "foreign" || strContains errorMsg "reference" then
    Violation.relation
  else
    Violation.unclassified

/-- `AsyncSqlAlchemyCrudRepository._check_violations` (repo.py, lines
744-761): character-identical classification logic. -/
def asyncCheckViolations (origMsg : String) : Violation :=
  let errorMsg := strLower origMsg
  if strContains errorMsg "unique" || strContains errorMsg "duplicate" then
    Violation.unique
  else if strContains errorMsg "foreign" || strContains errorMsg "reference" then
    Violation.relation
  else
    Violation.unclassified

/-- A backend record (a row of the db model's table): attribute name to
column value.  A missing attribute reads as SQL NULL. -/
abbrev Row := List (String × PyScalar)

/-- Column value of a row, NULL when the row lacks the attribute. -/
def rowValue (row : Row) (col : String) : PyScalar :=
  ((row.find? (fun p => p.1 == col)).map Prod.snd).getD PyScalar.none

/-- Comparison of two column values as performed by the SQL backend:
defined for operands of one comparable type, undefined (unknown) when NULL
or differently typed operands are involved.  Modelled from the spec: the
relational backend is an external collaborator; this is standard SQL
comparison semantics. -/
def scalarCompare : PyScalar → PyScalar → Option Ordering
  | PyScalar.int a, PyScalar.int b => Option.some (compare a b)
  | PyScalar.str a, PyScalar.str b => Option.some (compare a b)
  | PyScalar.bool a, PyScalar.bool b => Option.some (compare a b)
  | _, _ => Option.none

/-- SQL LIKE pattern matching over characters: percent matches any sequence,
underscore matches one character.  Modelled from the spec: backend-native
wildcard semantics of the external collaborator. -/
def likeMatch : List Char → List Char → Bool
  | [], [] => true
  | [], p :: ps => p = '%' && likeMatch [] ps
  | _ :: _, [] => false
  | s :: ss, p :: ps =>
      if p = '%' then likeMatch (s :: ss) ps || likeMatch ss (p :: ps)
      else if p = '_' then likeMatch ss ps
      else p = s && likeMatch ss ps
  termination_by s p => (s.length, p.length)

/-- Whether the column comparison of a row against a comparison operand is
satisfied with the given ordering outcome. -/
def cmpSat (row : Row) (col : String) (v : PyValue) (o : Ordering) : Bool :=
  match v with
  | PyValue.scalar s =>
      match scalarCompare (rowValue row col) s with
      | Option.some o2 => o2 = o
      | Option.none => false
  | _ => false

mutual

/-- Whether a row satisfies a SQL boolean expression.  Modelled from the
spec: the query engine is an external collaborator; this gives the
expressions their standard SQL meaning (SQLAlchemy compiles equality with
None to IS NULL / IS NOT NULL; comparisons involving NULL are not
satisfied). -/
def evalExpr (row : Row) : SqlExpr → Bool
  | SqlExpr.eq col v =>
      match v with
      | PyValue.scalar s => rowValue row col = s
      | _ => false
  | SqlExpr.ne col v =>
      match v with
      | PyValue.scalar PyScalar.none => rowValue row col ≠ PyScalar.none
      | PyValue.scalar s => rowValue row col ≠ PyScalar.none && rowValue row col ≠ s
      | _ => false
  | SqlExpr.gt col v => cmpSat row col v Ordering.gt
  | SqlExpr.lt col v => cmpSat row col v Ordering.lt
  | SqlExpr.ge col v => cmpSat row col v Ordering.gt || cmpSat row col v Ordering.eq
  | SqlExpr.le col v => cmpSat row col v Ordering.lt || cmpSat row col v Ordering.eq
  | SqlExpr.like col v =>
      match rowValue row col, v with
      | PyScalar.str s, PyValue.scalar (PyScalar.str pat) => likeMatch s.toList pat.toList
      | _, _ => false
  | SqlExpr.ilike col v =>
      match rowValue row col, v with
      | PyScalar.str s, PyValue.scalar (PyScalar.str pat) =>
          likeMatch s.toLower.toList pat.toLower.toList
      | _, _ => false
  | SqlExpr.inSet col vs =>
      rowValue row col ≠ PyScalar.none && vs.contains (rowValue row col)
  | SqlExpr.notInSet col vs =>
      rowValue row col ≠ PyScalar.none && !vs.contains (rowValue row col)
        && !vs.contains PyScalar.none
  | SqlExpr.and_ es => evalAll row es
  | SqlExpr.or_ es => evalAny row es
  | SqlExpr.not_ e => !evalExpr row e

/-- Conjunction over eagerly evaluated children (SQL AND). -/
def evalAll (row : Row) : List SqlExpr → Bool
  | [] => true
  | e :: es => evalExpr row e && evalAll row es

/-- Disjunction over eagerly evaluated children (SQL OR). -/
def evalAny (row : Row) : List SqlExpr → Bool
  | [] => false
  | e :: es => evalExpr row e || evalAny row es

end

/-- Comparison of two column values under one sort expression: null placement
decided by the nulls_first/nulls_last marker independently of direction,
non-null values by the backend comparison, swapped for descending order.
Modelled from the spec: standard SQL ORDER BY ... ASC/DESC NULLS FIRST/LAST
semantics of the external backend. -/
def SortExpr.compareKeys (e : SortExpr) (a b : PyScalar) : Ordering :=
  match a, b with
  | PyScalar.none, PyScalar.none => Ordering.eq
  | PyScalar.none, _ => if e.nullsFirst then Ordering.lt else Ordering.gt
  | _, PyScalar.none => if e.nullsFirst then Ordering.gt else Ordering.lt
  | x, y =>
      let base := (scalarCompare x y).getD Ordering.eq
      if e.ascending then base else base.swap

/-- Lexicographic row comparison along the sort-key sequence (first entry is
the primary sort key). -/
def rowOrd (es : List SortExpr) (r1 r2 : Row) : Ordering :=
  match es with
  | [] => Ordering.eq
  | e :: rest =>
      match e.compareKeys (rowValue r1 e.column) (rowValue r2 e.column) with
      | Ordering.eq => rowOrd rest r1 r2
      | o => o

/-- Boolean not-after relation used for the stable sort. -/
def rowLE (es : List SortExpr) (r1 r2 : Row) : Bool :=
  match rowOrd es r1 r2 with
  | Ordering.gt => false
  | _ => true

/-- Stable insertion keeping earlier rows before later equal rows. -/
def insertRow (le : Row → Row → Bool) (r : Row) : List Row → List Row
  | [] => [r]
  | x :: xs => if le x r then x :: insertRow le r xs else r :: x :: xs

/-- Stable sort of the result rows (ties keep table order). -/
def sortRows (le : Row → Row → Bool) (rows : List Row) : List Row :=
  rows.foldl (fun acc r => insertRow le r acc) []

/-- Execution of a built query by the backend: filter, stable sort, then
offset and limit.  Modelled from the spec: the storage engine is an external
collaborator. -/
def runQuery (db : List Row) (q : Query) : List Row :=
  let rows := db.filter (fun r => evalAll r q.filters)
  let rows := if q.orderBy.isEmpty then rows else sortRows (rowLE q.orderBy) rows
  let rows := match q.offset with
    | Option.some o => rows.drop o
    | Option.none => rows
  match q.limit with
  | Option.some l => rows.take l
  | Option.none => rows

/-- Observable interactions with the scoped session, in order.  `close` is
the guaranteed scope release (commit-or-rollback plus close on every exit
path) of the session collaborator, per the spec's session contract; where the
source has no explicit rollback but an exception unwinds with a pending
transaction, the release performs the rollback and an explicit `rollback`
event precedes `close`. -/
inductive SessionEvent where
  | add
  | sqlDelete
  | refresh
  | execute
  | commitOk
  | commitFail
  | rollback
  | close
  deriving Repr, DecidableEq

/-- Domain and backend exceptions surfaced by the repository operations.
ItemNotFoundException carries `self._db_model_class` and the identifier, as
in the source; the violation exceptions carry `self.model_class` and the
action name (the form payload is not modelled). -/
inductive PyException where
  | itemNotFound (dbModelClass : String) (itemId : PyScalar)
  | uniqueViolation (modelClass : String) (action : String)
  | relationViolation (modelClass : String) (action : String)
  | integrityError (origMsg : String)
  | multipleResultsFound
  | translationError (e : PyError)
  deriving Repr, DecidableEq

/-- The per-backend override points a concrete repository subclass supplies
(the abstract methods of repo.py): class names, the attribute names
resolvable on the db model class, the identifier-filter builder, the
record/model converters and the default filter/order hooks. -/
structure RepoHooks (M C U : Type) where
  dbModelClassName : String
  dbModelAttrs : List String
  modelClassName : String
  applyIdFilterCondition : Query → PyScalar → Query
  convertDbItemToModel : Row → M
  createDbItem : C → Row
  updateDbItem : Row → U → Row
  applyDefaultFilter : Query → Query
  applyDefaultOrder : Query → Query

/-- Behaviour of the backend during a mutating call: whether the commit
raises an IntegrityError (with the message of `str(e.orig)`), and how
`refresh` re-reads backend-assigned fields of a record. -/
structure BackendBehavior where
  commitResult : Option String
  refreshRow : Row → Row

/-- The observable outcome of one repository operation: the ordered session
events, the returned value or raised exception, and the backend state after
the call. -/
structure OpResult (α : Type) where
  events : List SessionEvent
  outcome : Except PyException α
  db : List Row

/-- Mapping of `_check_violations`'s classification to the exception it
raises (UniqueViolationException / RelationViolationException carry
`self.model_class` and the action; an unclassified IntegrityError is
re-raised as is). -/
def violationException (modelClass action origMsg : String) : PyException :=
  match checkViolations origMsg with
  | Violation.unique => PyException.uniqueViolation modelClass action
  | Violation.relation => PyException.relationViolation modelClass action
  | Violation.unclassified => PyException.integrityError origMsg

/-- Same mapping through the async flavor's `_check_violations`. -/
def asyncViolationException (modelClass action origMsg : String) : PyException :=
  match asyncCheckViolations origMsg with
  | Violation.unique => PyException.uniqueViolation modelClass action
  | Violation.relation => PyException.relationViolation modelClass action
  | Violation.unclassified => PyException.integrityError origMsg

section Operations

variable {M C U : Type}

/-- `SqlAlchemyCrudRepository.get_collection` (repo.py, lines 41-62): build
the query through _apply_filter, _apply_order, _apply_paging, execute it and
convert every returned record.  A translation error is raised while building
the query, before any backend round-trip. -/
def syncGetCollection (hooks : RepoHooks M C U) (db : List Row)
    (filterSpec : Option Spec) (orderOptions : Option (List OrderOption))
    (pagingOptions : Option PagingOptions) : OpResult (List M) :=
  let built : Except PyError Query := do
    let q ← applyFilter hooks.applyDefaultFilter hooks.dbModelAttrs {} filterSpec
    let q ← applyOrder hooks.applyDefaultOrder hooks.dbModelAttrs q orderOptions
    pure (applyPaging q pagingOptions)
  match built with
  | Except.error e =>
      { events := [SessionEvent.close],
        outcome := Except.error (PyException.translationError e), db := db }
  | Except.ok q =>
      { events := [SessionEvent.execute, SessionEvent.close],
        outcome := Except.ok ((runQuery db q).map hooks.convertDbItemToModel), db := db }

/-- `AsyncSqlAlchemyCrudRepository.get_collection` (repo.py, lines 409-433):
the same pipeline through the async `_apply_*` helpers. -/
def asyncGetCollection (hooks : RepoHooks M C U) (db : List Row)
    (filterSpec : Option Spec) (orderOptions : Option (List OrderOption))
    (pagingOptions : Option PagingOptions) : OpResult (List M) :=
  let built : Except PyError Query := do
    let q ← asyncApplyFilter hooks.applyDefaultFilter hooks.dbModelAttrs {} filterSpec
    let q ← asyncApplyOrder hooks.applyDefaultOrder hooks.dbModelAttrs q orderOptions
    pure (asyncApplyPaging q pagingOptions)
  match built with
  | Except.error e =>
      { events := [SessionEvent.close],
        outcome := Except.error (PyException.translationError e), db := db }
  | Except.ok q =>
      { events := [SessionEvent.execute, SessionEvent.close],
        outcome := Except.ok ((runQuery db q).map hooks.convertDbItemToModel), db := db }

/-- `SqlAlchemyCrudRepository.count` (repo.py, lines 64-76): apply the filter
pipeline and take the backend count. -/
def syncCount (hooks : RepoHooks M C U) (db : List Row)
    (filterSpec : Option Spec) : OpResult Nat :=
  match applyFilter hooks.applyDefaultFilter hooks.dbModelAttrs {} filterSpec with
  | Except.error e =>
      { events := [SessionEvent.close],
        outcome := Except.error (PyException.translationError e), db := db }
  | Except.ok q =>
      { events := [SessionEvent.execute, SessionEvent.close],
        outcome := Except.ok (runQuery db q).length, db := db }

/-- `AsyncSqlAlchemyCrudRepository.count` (repo.py, lines 435-449): the async
filter pipeline, then the length of all fetched rows. -/
def asyncCount (hooks : RepoHooks M C U) (db : List Row)
    (filterSpec : Option Spec) : OpResult Nat :=
  match asyncApplyFilter hooks.applyDefaultFilter hooks.dbModelAttrs {} filterSpec with
  | Except.error e =>
      { events := [SessionEvent.close],
        outcome := Except.error (PyException.translationError e), db := db }
  | Except.ok q =>
      { events := [SessionEvent.execute, SessionEvent.close],
        outcome := Except.ok (runQuery db q).length, db := db }

/-- `SqlAlchemyCrudRepository.get_item` (repo.py, lines 78-96): fetch exactly
one record through the identifier filter; `.one()` raises NoResultFound on
zero rows, which is caught, rolled back and translated to
ItemNotFoundException; MultipleResultsFound on several rows is uncaught and
unwinds through the scope release. -/
def syncGetItem (hooks : RepoHooks M C U) (db : List Row) (itemId : PyScalar) :
    OpResult M :=
  match runQuery db (hooks.applyIdFilterCondition {} itemId) with
  | [dbItem] =>
      { events := [SessionEvent.execute, SessionEvent.close],
        outcome := Except.ok (hooks.convertDbItemToModel dbItem), db := db }
  | [] =>
      { events := [SessionEvent.execute, SessionEvent.rollback, SessionEvent.close],
        outcome := Except.error (PyException.itemNotFound hooks.dbModelClassName itemId),
        db := db }
  | _ =>
      { events := [SessionEvent.execute, SessionEvent.rollback, SessionEvent.close],
        outcome := Except.error PyException.multipleResultsFound, db := db }

/-- `AsyncSqlAlchemyCrudRepository.get_item` (repo.py, lines 451-471): same
contract through `scalar_one()`. -/
def asyncGetItem (hooks : RepoHooks M C U) (db : List Row) (itemId : PyScalar) :
    OpResult M :=
  match runQuery db (hooks.applyIdFilterCondition {} itemId) with
  | [dbItem] =>
      { events := [SessionEvent.execute, SessionEvent.close],
        outcome := Except.ok (hooks.convertDbItemToModel dbItem), db := db }
  | [] =>
      { events := [SessionEvent.execute, SessionEvent.rollback, SessionEvent.close],
        outcome := Except.error (PyException.itemNotFound hooks.dbModelClassName itemId),
        db := db }
  | _ =>
      { events := [SessionEvent.execute, SessionEvent.rollback, SessionEvent.close],
        outcome := Except.error PyException.multipleResultsFound, db := db }

/-- `SqlAlchemyCrudRepository.exists` (repo.py, lines 98-108): count the
identifier-filtered rows; no exception on absence. -/
def syncExists (hooks : RepoHooks M C U) (db : List Row) (itemId : PyScalar) :
    OpResult Bool :=
  { events := [SessionEvent.execute, SessionEvent.close],
    outcome := Except.ok
      (0 < (runQuery db (hooks.applyIdFilterCondition {} itemId)).length),
    db := db }

/-- `AsyncSqlAlchemyCrudRepository.exists` (repo.py, lines 473-485):
`scalar_one_or_none()` gives false on zero rows, true on one, and raises
MultipleResultsFound on several. -/
def asyncExists (hooks : RepoHooks M C U) (db : List Row) (itemId : PyScalar) :
    OpResult Bool :=
  match runQuery db (hooks.applyIdFilterCondition {} itemId) with
  | [] =>
      { events := [SessionEvent.execute, SessionEvent.close],
        outcome := Except.ok false, db := db }
  | [_] =>
      { events := [SessionEvent.execute, SessionEvent.close],
        outcome := Except.ok true, db := db }
  | _ =>
      { events := [SessionEvent.execute, SessionEvent.rollback, SessionEvent.close],
        outcome := Except.error PyException.multipleResultsFound, db := db }

/-- `SqlAlchemyCrudRepository.create` (repo.py, lines 110-132): build the
record, add, commit, refresh, convert; an IntegrityError from the commit is
rolled back and classified by `_check_violations`. -/
def syncCreate (hooks : RepoHooks M C U) (backend : BackendBehavior) (db : List Row)
    (form : C) : OpResult M :=
  let dbItem := hooks.createDbItem form
  match backend.commitResult with
  | Option.none =>
      let refreshed := backend.refreshRow dbItem
      { events := [SessionEvent.add, SessionEvent.commitOk, SessionEvent.refresh,
                   SessionEvent.close],
        outcome := Except.ok (hooks.convertDbItemToModel refreshed),
        db := db ++ [refreshed] }
  | Option.some msg =>
      { events := [SessionEvent.add, SessionEvent.commitFail, SessionEvent.rollback,
                   SessionEvent.close],
        outcome := Except.error (violationException hooks.modelClassName "create" msg),
        db := db }

/-- `AsyncSqlAlchemyCrudRepository.create` (repo.py, lines 487-509): the same
sequence with awaited commit/refresh/rollback. -/
def asyncCreate (hooks : RepoHooks M C U) (backend : BackendBehavior) (db : List Row)
    (form : C) : OpResult M :=
  let dbItem := hooks.createDbItem form
  match backend.commitResult with
  | Option.none =>
      let refreshed := backend.refreshRow dbItem
      { events := [SessionEvent.add, SessionEvent.commitOk, SessionEvent.refresh,
                   SessionEvent.close],
        outcome := Except.ok (hooks.convertDbItemToModel refreshed),
        db := db ++ [refreshed] }
  | Option.some msg =>
      { events := [SessionEvent.add, SessionEvent.commitFail, SessionEvent.rollback,
                   SessionEvent.close],
        outcome := Except.error (asyncViolationException hooks.modelClassName "create" msg),
        db := db }

/-- `SqlAlchemyCrudRepository.update` (repo.py, lines 134-162): fetch exactly
one record by identifier, apply the update form, add, commit, refresh,
convert; NoResultFound is rolled back and translated to ItemNotFound, an
IntegrityError is rolled back and classified. -/
def syncUpdate (hooks : RepoHooks M C U) (backend : BackendBehavior) (db : List Row)
    (itemId : PyScalar) (form : U) : OpResult M :=
  match runQuery db (hooks.applyIdFilterCondition {} itemId) with
  | [dbItem] =>
      let updated := hooks.updateDbItem dbItem form
      match backend.commitResult with
      | Option.none =>
          let refreshed := backend.refreshRow updated
          { events := [SessionEvent.execute, SessionEvent.add, SessionEvent.commitOk,
                       SessionEvent.refresh, SessionEvent.close],
            outcome := Except.ok (hooks.convertDbItemToModel refreshed),
            db := db.map (fun r => if r = dbItem then refreshed else r) }
      | Option.some msg =>
          { events := [SessionEvent.execute, SessionEvent.add, SessionEvent.commitFail,
                       SessionEvent.rollback, SessionEvent.close],
            outcome := Except.error (violationException hooks.modelClassName "update" msg),
            db := db }
  | [] =>
      { events := [SessionEvent.execute, SessionEvent.rollback, SessionEvent.close],
        outcome := Except.error (PyException.itemNotFound hooks.dbModelClassName itemId),
        db := db }
  | _ =>
      { events := [SessionEvent.execute, SessionEvent.rollback, SessionEvent.close],
        outcome := Except.error PyException.multipleResultsFound, db := db }

/-- `AsyncSqlAlchemyCrudRepository.update` (repo.py, lines 511-540): the same
contract; the async flavor does not re-add the fetched record before
committing. -/
def asyncUpdate (hooks : RepoHooks M C U) (backend : BackendBehavior) (db : List Row)
    (itemId : PyScalar) (form : U) : OpResult M :=
  match runQuery db (hooks.applyIdFilterCondition {} itemId) with
  | [dbItem] =>
      let updated := hooks.updateDbItem dbItem form
      match backend.commitResult with
      | Option.none =>
          let refreshed := backend.refreshRow updated
          { events := [SessionEvent.execute, SessionEvent.commitOk,
                       SessionEvent.refresh, SessionEvent.close],
            outcome := Except.ok (hooks.convertDbItemToModel refreshed),
            db := db.map (fun r => if r = dbItem then refreshed else r) }
      | Option.some msg =>
          { events := [SessionEvent.execute, SessionEvent.commitFail,
                       SessionEvent.rollback, SessionEvent.close],
            outcome := Except.error
              (asyncViolationException hooks.modelClassName "update" msg),
            db := db }
  | [] =>
      { events := [SessionEvent.execute, SessionEvent.rollback, SessionEvent.close],
        outcome := Except.error (PyException.itemNotFound hooks.dbModelClassName itemId),
        db := db }
  | _ =>
      { events := [SessionEvent.execute, SessionEvent.rollback, SessionEvent.close],
        outcome := Except.error PyException.multipleResultsFound, db := db }

/-- `SqlAlchemyCrudRepository.delete` (repo.py, lines 164-184): fetch exactly
one record, delete it, commit, and convert the record fetched before the
deletion; NoResultFound is rolled back and translated to ItemNotFound; an
IntegrityError from the commit is not caught here and unwinds through the
scope release. -/
def syncDelete (hooks : RepoHooks M C U) (backend : BackendBehavior) (db : List Row)
    (itemId : PyScalar) : OpResult M :=
  match runQuery db (hooks.applyIdFilterCondition {} itemId) with
  | [dbItem] =>
      match backend.commitResult with
      | Option.none =>
          { events := [SessionEvent.execute, SessionEvent.sqlDelete,
                       SessionEvent.commitOk, SessionEvent.close],
            outcome := Except.ok (hooks.convertDbItemToModel dbItem),
            db := db.erase dbItem }
      | Option.some msg =>
          { events := [SessionEvent.execute, SessionEvent.sqlDelete,
                       SessionEvent.commitFail, SessionEvent.rollback,
                       SessionEvent.close],
            outcome := Except.error (PyException.integrityError msg), db := db }
  | [] =>
      { events := [SessionEvent.execute, SessionEvent.rollback, SessionEvent.close],
        outcome := Except.error (PyException.itemNotFound hooks.dbModelClassName itemId),
        db := db }
  | _ =>
      { events := [SessionEvent.execute, SessionEvent.rollback, SessionEvent.close],
        outcome := Except.error PyException.multipleResultsFound, db := db }

/-- `AsyncSqlAlchemyCrudRepository.delete` (repo.py, lines 542-564): the same
contract with awaited operations. -/
def asyncDelete (hooks : RepoHooks M C U) (backend : BackendBehavior) (db : List Row)
    (itemId : PyScalar) : OpResult M :=
  match runQuery db (hooks.applyIdFilterCondition {} itemId) with
  | [dbItem] =>
      match backend.commitResult with
      | Option.none =>
          { events := [SessionEvent.execute, SessionEvent.sqlDelete,
                       SessionEvent.commitOk, SessionEvent.close],
            outcome := Except.ok (hooks.convertDbItemToModel dbItem),
            db := db.erase dbItem }
      | Option.some msg =>
          { events := [SessionEvent.execute, SessionEvent.sqlDelete,
                       SessionEvent.commitFail, SessionEvent.rollback,
                       SessionEvent.close],
            outcome := Except.error (PyException.integrityError msg), db := db }
  | [] =>
      { events := [SessionEvent.execute, SessionEvent.rollback, SessionEvent.close],
        outcome := Except.error (PyException.itemNotFound hooks.dbModelClassName itemId),
        db := db }
  | _ =>
      { events := [SessionEvent.execute, SessionEvent.rollback, SessionEvent.close],
        outcome := Except.error PyException.multipleResultsFound, db := db }

end Operations

/-- Spec-side notion for the IN/NOT_IN contract: an ordered sequence value
(a Python list or tuple), following the spec's words; the source's guard
accepts only a Python list. -/
def PyValue.isOrderedSequence : PyValue → Bool
  | PyValue.list _ => true
  | PyValue.tuple _ => true
  | _ => false

/-- An always-on backend base restriction, as a concrete default-filter hook
(the spec's example: soft-delete exclusion). -/
def softDeleteFilter : Query → Query :=
  fun q => q.filter (SqlExpr.eq "deleted" (PyValue.scalar (PyScalar.bool false)))

/-- Helper: a successful conversion of a child list preserves child count and
converts children pointwise in order. -/
theorem convertChildren_spec (cs : List Spec) :
    ∀ rs : List SaSpec, convertChildren cs = Except.ok rs →
      rs.length = cs.length ∧ List.Forall₂ (fun c r => convert c = Except.ok r) cs rs := by
  induction cs with
  | nil =>
      intro rs h
      simp only [convertChildren] at h
      cases h
      exact ⟨rfl, List.Forall₂.nil⟩
  | cons c rest ih =>
      intro rs h
      simp only [convertChildren] at h
      cases hc : convert c with
      | error e => rw [hc] at h; simp [Bind.bind, Except.bind] at h
      | ok r =>
          rw [hc] at h
          cases hrest : convertChildren rest with
          | error e => rw [hrest] at h; simp [Bind.bind, Except.bind] at h
          | ok rs2 =>
              rw [hrest] at h
              simp only [Bind.bind, Except.bind, pure, Except.pure] at h
              cases h
              obtain ⟨hlen, hall⟩ := ih rs2 hrest
              exact ⟨by simp [hlen], List.Forall₂.cons hc hall⟩

/-- C4: convert is a structure-preserving rewrite: an attribute leaf maps to
a backend leaf with the same three fields; And/Or map to backend And/Or over
the converted children with count and order preserved; Not wraps the
converted child; any other node kind raises a TypeError at convert time. -/
theorem c4_convert_structure :
    (∀ (n : String) (v : PyValue) (op : Operator),
      convert (Spec.attr n v op) = Except.ok (SaSpec.attr n v op)) ∧
    (∀ (cs : List Spec) (rs : List SaSpec), convertChildren cs = Except.ok rs →
      convert (Spec.and_ cs) = Except.ok (SaSpec.and_ rs) ∧
      convert (Spec.or_ cs) = Except.ok (SaSpec.or_ rs) ∧
      rs.length = cs.length ∧
      List.Forall₂ (fun c r => convert c = Except.ok r) cs rs) ∧
    (∀ (c : Spec) (r : SaSpec), convert c = Except.ok r →
      convert (Spec.not_ c) = Except.ok (SaSpec.not_ r)) ∧
    (∀ d : String, convert (Spec.other d)
      = Except.error (PyError.typeError ("Unsupported specification type: " ++ d))) := by
  refine ⟨fun n v op => rfl, fun cs rs h => ?_, fun c r h => ?_, fun d => rfl⟩
  · obtain ⟨hlen, hall⟩ := convertChildren_spec cs rs h
    exact ⟨by simp [convert, h, Except.map], by simp [convert, h, Except.map], hlen, hall⟩
  · simp [convert, h, Except.map]

/-- C4 witness: the structure preservation applied to a concrete And node
with two children and to a concrete Not node. -/
theorem c4_convert_structure_witness :
    convert (Spec.and_ [Spec.attr "id" (PyValue.scalar (PyScalar.int 5)) Operator.LTE,
        Spec.not_ (Spec.attr "text" (PyValue.scalar PyScalar.none) Operator.E)])
      = Except.ok (SaSpec.and_ [SaSpec.attr "id" (PyValue.scalar (PyScalar.int 5)) Operator.LTE,
        SaSpec.not_ (SaSpec.attr "text" (PyValue.scalar PyScalar.none) Operator.E)]) :=
  (c4_convert_structure.2.1
    [Spec.attr "id" (PyValue.scalar (PyScalar.int 5)) Operator.LTE,
      Spec.not_ (Spec.attr "text" (PyValue.scalar PyScalar.none) Operator.E)]
    [SaSpec.attr "id" (PyValue.scalar (PyScalar.int 5)) Operator.LTE,
      SaSpec.not_ (SaSpec.attr "text" (PyValue.scalar PyScalar.none) Operator.E)]
    rfl).1

/-- C3 counterexample: a tuple is an ordered sequence, yet evaluating an IN
leaf over it raises the ValueError, because the source guard accepts only a
Python list; this falsifies the claim that every ordered sequence value is
accepted. -/
theorem c3_counterexample_tuple_rejected :
    PyValue.isOrderedSequence (PyValue.tuple [PyScalar.int 1, PyScalar.int 2]) = true ∧
    isSatisfiedBy ["id"]
        (SaSpec.attr "id" (PyValue.tuple [PyScalar.int 1, PyScalar.int 2]) Operator.IN)
      = Except.error (PyError.valueError "Attribute value must be a list") :=
  ⟨rfl, rfl⟩

/-- C3 (amended): for IN and NOT_IN over a resolvable attribute, evaluation
raises the ValueError exactly when the attribute value is not a Python list
(scalars and non-list sequences such as tuples all raise), and a list value
yields the set-membership respectively set-non-membership expression. -/
theorem c3_in_requires_list (model : List String) (name : String) (v : PyValue)
    (h : model.contains name = true) :
    (v.isList = false →
      isSatisfiedBy model (SaSpec.attr name v Operator.IN)
        = Except.error (PyError.valueError "Attribute value must be a list") ∧
      isSatisfiedBy model (SaSpec.attr name v Operator.NOT_IN)
        = Except.error (PyError.valueError "Attribute value must be a list")) ∧
    (∀ xs : List PyScalar, v = PyValue.list xs →
      isSatisfiedBy model (SaSpec.attr name v Operator.IN)
        = Except.ok (SqlExpr.inSet name xs) ∧
      isSatisfiedBy model (SaSpec.attr name v Operator.NOT_IN)
        = Except.ok (SqlExpr.notInSet name xs)) := by
  have hmem : name ∈ model := by simpa using h
  constructor
  · intro hv
    cases v with
    | scalar s =>
        exact ⟨by simp [isSatisfiedBy, getDbModelAttr, hmem, Bind.bind, Except.bind],
          by simp [isSatisfiedBy, getDbModelAttr, hmem, Bind.bind, Except.bind]⟩
    | list xs => simp [PyValue.isList] at hv
    | tuple xs =>
        exact ⟨by simp [isSatisfiedBy, getDbModelAttr, hmem, Bind.bind, Except.bind],
          by simp [isSatisfiedBy, getDbModelAttr, hmem, Bind.bind, Except.bind]⟩
  · intro xs hv
    subst hv
    exact ⟨by simp [isSatisfiedBy, getDbModelAttr, hmem, Bind.bind, Except.bind, pure, Except.pure],
      by simp [isSatisfiedBy, getDbModelAttr, hmem, Bind.bind, Except.bind, pure, Except.pure]⟩

/-- C3 witness: the scalar 12 raises on IN (the spec's literal test), and the
list [2, 4] is accepted for NOT_IN. -/
theorem c3_in_requires_list_witness :
    isSatisfiedBy ["id"] (SaSpec.attr "id" (PyValue.scalar (PyScalar.int 12)) Operator.IN)
      = Except.error (PyError.valueError "Attribute value must be a list") ∧
    isSatisfiedBy ["id"]
        (SaSpec.attr "id" (PyValue.list [PyScalar.int 2, PyScalar.int 4]) Operator.NOT_IN)
      = Except.ok (SqlExpr.notInSet "id" [PyScalar.int 2, PyScalar.int 4]) :=
  ⟨((c3_in_requires_list ["id"] "id" (PyValue.scalar (PyScalar.int 12)) rfl).1 rfl).1,
    ((c3_in_requires_list ["id"] "id" (PyValue.list [PyScalar.int 2, PyScalar.int 4]) rfl).2
      [PyScalar.int 2, PyScalar.int 4] rfl).2⟩

/-- C1: at the failing input, the synchronous `_apply_filter` applies the
backend default filter before the caller filter, while the asynchronous
`_apply_filter` drops the default filter entirely whenever a caller filter is
supplied — the built statements differ. -/
theorem c1_async_drops_default_filter :
    applyFilter softDeleteFilter ["id", "deleted"] {}
        (Option.some (Spec.attr "id" (PyValue.scalar (PyScalar.int 1)) Operator.E))
      = Except.ok { filters := [SqlExpr.eq "deleted" (PyValue.scalar (PyScalar.bool false)),
          SqlExpr.eq "id" (PyValue.scalar (PyScalar.int 1))] } ∧
    asyncApplyFilter softDeleteFilter ["id", "deleted"] {}
        (Option.some (Spec.attr "id" (PyValue.scalar (PyScalar.int 1)) Operator.E))
      = Except.ok { filters := [SqlExpr.eq "id" (PyValue.scalar (PyScalar.int 1))] } :=
  ⟨rfl, rfl⟩

/-- C1 (sync half, for contrast): with or without a caller filter, the
synchronous `_apply_filter` always routes the query through the
default-filter hook first. -/
theorem c1_sync_default_filter_always (defaultFilter : Query → Query)
    (dbModelClass : List String) (q : Query) (filterSpec : Option Spec) :
    (applyFilter defaultFilter dbModelClass q filterSpec = Except.ok (defaultFilter q)) ∨
    (∃ condition : SqlExpr,
      applyFilter defaultFilter dbModelClass q filterSpec
        = Except.ok ((defaultFilter q).filter condition)) ∨
    (∃ e : PyError, applyFilter defaultFilter dbModelClass q filterSpec = Except.error e) := by
  cases filterSpec with
  | none => exact Or.inl rfl
  | some spec =>
      cases hc : convert spec with
      | error e =>
          exact Or.inr (Or.inr ⟨e, by simp [applyFilter, hc, Bind.bind, Except.bind]⟩)
      | ok sa =>
          cases hs : isSatisfiedBy dbModelClass sa with
          | error e =>
              exact Or.inr (Or.inr ⟨e,
                by simp [applyFilter, hc, hs, Bind.bind, Except.bind]⟩)
          | ok condition =>
              exact Or.inr (Or.inl ⟨condition,
                by simp [applyFilter, hc, hs, Bind.bind, Except.bind, pure, Except.pure]⟩)

/-- C8: the generated sort expression is ascending exactly per the
direction, places nulls exactly per the nones field, and the two axes are
orthogonal: under nulls FIRST a null key compares below every non-null key
whatever the direction (so DESC with nulls FIRST still puts null-valued
records first), under nulls LAST above; direction alone decides the order of
non-null keys. -/
theorem c8_order_null_placement (item : OrderOption) (model : List String) (e : SortExpr)
    (h : getExpression item model = Except.ok e) :
    (e.ascending = decide (item.direction = OrderDirection.ASC)) ∧
    (e.nullsFirst = decide (item.nones = NonesOrder.FIRST)) ∧
    (∀ x : PyScalar, x ≠ PyScalar.none →
      (item.nones = NonesOrder.FIRST →
        e.compareKeys PyScalar.none x = Ordering.lt ∧
        e.compareKeys x PyScalar.none = Ordering.gt) ∧
      (item.nones = NonesOrder.LAST →
        e.compareKeys PyScalar.none x = Ordering.gt ∧
        e.compareKeys x PyScalar.none = Ordering.lt)) ∧
    (∀ a b : Int,
      (item.direction = OrderDirection.ASC →
        e.compareKeys (PyScalar.int a) (PyScalar.int b) = compare a b) ∧
      (item.direction = OrderDirection.DESC →
        e.compareKeys (PyScalar.int a) (PyScalar.int b) = (compare a b).swap)) := by
  have he : e =
      { column := item.attrName
        ascending := decide (item.direction = OrderDirection.ASC)
        nullsFirst := decide (item.nones = NonesOrder.FIRST) } := by
    by_cases hm : model.contains item.attrName = true
    · simp [getExpression, getDbModelAttr, Bind.bind, Except.bind, pure, Except.pure,
        (by simpa using hm : item.attrName ∈ model)] at h
      exact h.symm
    · simp [getExpression, getDbModelAttr, Bind.bind, Except.bind,
        (by simpa using hm : ¬ item.attrName ∈ model)] at h
  subst he
  refine ⟨rfl, rfl, fun x hx => ?_, fun a b => ?_⟩
  · cases x with
    | none => exact absurd rfl hx
    | bool b =>
        cases item.nones <;> cases item.direction <;>
          simp [SortExpr.compareKeys]
    | int n =>
        cases item.nones <;> cases item.direction <;>
          simp [SortExpr.compareKeys]
    | str s =>
        cases item.nones <;> cases item.direction <;>
          simp [SortExpr.compareKeys]
  · cases item.direction <;> cases item.nones <;>
      simp [SortExpr.compareKeys, scalarCompare]

/-- C8 witness: sorting by text DESC with nulls FIRST still compares a null
key below a non-null key. -/
theorem c8_order_null_placement_witness :
    getExpression
        { attrName := "text"
          direction := OrderDirection.DESC
          nones := NonesOrder.FIRST } ["id", "text"]
      = Except.ok { column := "text", ascending := false, nullsFirst := true } ∧
    SortExpr.compareKeys { column := "text", ascending := false, nullsFirst := true }
        PyScalar.none (PyScalar.str "Title 1") = Ordering.lt :=
  ⟨rfl,
    (((c8_order_null_placement
      { attrName := "text", direction := OrderDirection.DESC, nones := NonesOrder.FIRST }
      ["id", "text"] { column := "text", ascending := false, nullsFirst := true }
      rfl).2.2.1 (PyScalar.str "Title 1") (by simp)).1 rfl).1⟩


/-- C9: absent paging options leave the built query unchanged in both
flavors; with paging options supplied, an absent limit or offset field
leaves that component unchanged, and paging never touches the filter or
order components — in particular no implicit limit is ever applied. -/
theorem c9_paging_no_op (q : Query) (p : PagingOptions) :
    applyPaging q Option.none = q ∧
    asyncApplyPaging q Option.none = q ∧
    (p.limit = Option.none →
      (applyPaging q (Option.some p)).limit = q.limit ∧
      (asyncApplyPaging q (Option.some p)).limit = q.limit) ∧
    (p.offset = Option.none →
      (applyPaging q (Option.some p)).offset = q.offset ∧
      (asyncApplyPaging q (Option.some p)).offset = q.offset) ∧
    (applyPaging q (Option.some p)).filters = q.filters ∧
    (applyPaging q (Option.some p)).orderBy = q.orderBy ∧
    (asyncApplyPaging q (Option.some p)).filters = q.filters ∧
    (asyncApplyPaging q (Option.some p)).orderBy = q.orderBy ∧
    (q.limit = Option.none → p.limit = Option.none →
      (applyPaging q (Option.some p)).limit = Option.none ∧
      (asyncApplyPaging q (Option.some p)).limit = Option.none) := by
  obtain ⟨pl, po⟩ := p
  cases pl <;> cases po <;> simp [applyPaging, asyncApplyPaging]

/-- C9 witness: a fully absent paging value is the identity on a concrete
query carrying a filter. -/
theorem c9_paging_no_op_witness :
    (applyPaging (Query.filter {} (SqlExpr.eq "id" (PyValue.scalar (PyScalar.int 1))))
        (Option.some { limit := Option.none, offset := Option.none })).limit
      = Option.none :=
  ((c9_paging_no_op (Query.filter {} (SqlExpr.eq "id" (PyValue.scalar (PyScalar.int 1))))
      { limit := Option.none, offset := Option.none }).2.2.2.2.2.2.2.2 rfl rfl).1

/-- Concrete subclass hooks for witnesses, mirroring the News repository of
the test fixtures with the business model equal to the record: identifier
filter on the id column, identity converters, identity default hooks. -/
def newsHooks : RepoHooks Row Row Row :=
  { dbModelClassName := "NewsTable"
    dbModelAttrs := ["id", "author_id", "title", "text", "deleted"]
    modelClassName := "News"
    applyIdFilterCondition := fun q i => q.filter (SqlExpr.eq "id" (PyValue.scalar i))
    convertDbItemToModel := id
    createDbItem := id
    updateDbItem := fun _ u => u
    applyDefaultFilter := id
    applyDefaultOrder := id }

/-- The same hooks with a non-trivial always-on default filter (soft-delete
exclusion, the spec's own example of a backend-specific base restriction). -/
def softDeleteHooks : RepoHooks Row Row Row :=
  { newsHooks with applyDefaultFilter := softDeleteFilter }

/-- A backend on which commits succeed and refresh is the identity. -/
def idBackend : BackendBehavior :=
  { commitResult := Option.none, refreshRow := id }

/-- A live record (not soft-deleted). -/
def rowAlive : Row := [("id", PyScalar.int 1), ("deleted", PyScalar.bool false)]

/-- A soft-deleted record, excluded by the default filter. -/
def rowDead : Row := [("id", PyScalar.int 2), ("deleted", PyScalar.bool true)]

/-- C2: at the failing input the two flavors disagree: with the same backend
state and the same subclass hooks (a soft-delete default filter) and the same
caller filter, the blocking get_collection/count see only the live record
while the suspending flavor also returns the soft-deleted one, because its
`_apply_filter` drops the default filter when a caller filter is supplied. -/
theorem c2_flavors_diverge :
    (syncGetCollection softDeleteHooks [rowAlive, rowDead]
        (Option.some (Spec.attr "id" (PyValue.scalar (PyScalar.int 0)) Operator.GT))
        Option.none Option.none).outcome
      = Except.ok [rowAlive] ∧
    (asyncGetCollection softDeleteHooks [rowAlive, rowDead]
        (Option.some (Spec.attr "id" (PyValue.scalar (PyScalar.int 0)) Operator.GT))
        Option.none Option.none).outcome
      = Except.ok [rowAlive, rowDead] ∧
    (syncCount softDeleteHooks [rowAlive, rowDead]
        (Option.some (Spec.attr "id" (PyValue.scalar (PyScalar.int 0)) Operator.GT))).outcome
      = Except.ok 1 ∧
    (asyncCount softDeleteHooks [rowAlive, rowDead]
        (Option.some (Spec.attr "id" (PyValue.scalar (PyScalar.int 0)) Operator.GT))).outcome
      = Except.ok 2 :=
  ⟨rfl, rfl, rfl, rfl⟩

/-- Claim-side session contract of a mutating operation: on success exactly
one successful commit and no rollback; on a raised error a rollback happens
before the call returns and no successful commit happened. -/
def mutationContract {α : Type} (r : OpResult α) : Prop :=
  ((∃ a, r.outcome = Except.ok a) →
    r.events.count SessionEvent.commitOk = 1 ∧ SessionEvent.commitFail ∉ r.events ∧
    SessionEvent.rollback ∉ r.events) ∧
  ((∃ ex, r.outcome = Except.error ex) →
    SessionEvent.rollback ∈ r.events ∧ SessionEvent.commitOk ∉ r.events)

/-- Claim-side session contract of a read operation: on a raised error the
session is rolled back and never committed. -/
def notFoundReadContract {α : Type} (r : OpResult α) : Prop :=
  (∃ ex, r.outcome = Except.error ex) →
    SessionEvent.rollback ∈ r.events ∧ SessionEvent.commitOk ∉ r.events ∧
    SessionEvent.commitFail ∉ r.events

/-- C5: for every subclass hook set, backend behaviour and input, create,
update and delete in both flavors commit exactly once on success and roll
back on any raised error before it is re-raised or translated, and get_item
in both flavors rolls back (and does not commit) on its error path. -/
theorem c5_rollback_discipline {M C U : Type} (hooks : RepoHooks M C U)
    (backend : BackendBehavior) (db : List Row) (itemId : PyScalar)
    (cform : C) (uform : U) :
    mutationContract (syncCreate hooks backend db cform) ∧
    mutationContract (asyncCreate hooks backend db cform) ∧
    mutationContract (syncUpdate hooks backend db itemId uform) ∧
    mutationContract (asyncUpdate hooks backend db itemId uform) ∧
    mutationContract (syncDelete hooks backend db itemId) ∧
    mutationContract (asyncDelete hooks backend db itemId) ∧
    notFoundReadContract (syncGetItem hooks db itemId) ∧
    notFoundReadContract (asyncGetItem hooks db itemId) := by
  rcases hfetch : runQuery db (hooks.applyIdFilterCondition {} itemId) with
    _ | ⟨r0, _ | ⟨r1, rest⟩⟩ <;>
  cases hb : backend.commitResult <;>
  refine ⟨⟨?_, ?_⟩, ⟨?_, ?_⟩, ⟨?_, ?_⟩, ⟨?_, ?_⟩, ⟨?_, ?_⟩, ⟨?_, ?_⟩, ?_, ?_⟩ <;>
  simp [mutationContract, notFoundReadContract, syncCreate, asyncCreate, syncUpdate,
    asyncUpdate, syncDelete, asyncDelete, syncGetItem, asyncGetItem, hfetch, hb,
    List.count_cons, List.count_nil]

/-- C5 witness: the not-found path of get_item on an empty backend rolls the
session back. -/
theorem c5_rollback_discipline_witness :
    SessionEvent.rollback ∈ (syncGetItem newsHooks ([] : List Row) (PyScalar.int 7)).events :=
  (((c5_rollback_discipline newsHooks idBackend [] (PyScalar.int 7)
      ([] : Row) ([] : Row)).2.2.2.2.2.2.1)
    ⟨PyException.itemNotFound "NewsTable" (PyScalar.int 7), rfl⟩).1

/-- C6: when the identifier filter matches zero records, get_item, update and
delete of both flavors raise ItemNotFound carrying the db model class and the
identifier, while exists of both flavors returns false without raising. -/
theorem c6_not_found {M C U : Type} (hooks : RepoHooks M C U) (backend : BackendBehavior)
    (db : List Row) (itemId : PyScalar) (uform : U)
    (h : runQuery db (hooks.applyIdFilterCondition {} itemId) = []) :
    (syncGetItem hooks db itemId).outcome
      = Except.error (PyException.itemNotFound hooks.dbModelClassName itemId) ∧
    (asyncGetItem hooks db itemId).outcome
      = Except.error (PyException.itemNotFound hooks.dbModelClassName itemId) ∧
    (syncUpdate hooks backend db itemId uform).outcome
      = Except.error (PyException.itemNotFound hooks.dbModelClassName itemId) ∧
    (asyncUpdate hooks backend db itemId uform).outcome
      = Except.error (PyException.itemNotFound hooks.dbModelClassName itemId) ∧
    (syncDelete hooks backend db itemId).outcome
      = Except.error (PyException.itemNotFound hooks.dbModelClassName itemId) ∧
    (asyncDelete hooks backend db itemId).outcome
      = Except.error (PyException.itemNotFound hooks.dbModelClassName itemId) ∧
    (syncExists hooks db itemId).outcome = Except.ok false ∧
    (asyncExists hooks db itemId).outcome = Except.ok false := by
  refine ⟨?_, ?_, ?_, ?_, ?_, ?_, ?_, ?_⟩ <;>
    simp [syncGetItem, asyncGetItem, syncUpdate, asyncUpdate, syncDelete, asyncDelete,
      syncExists, asyncExists, h]

/-- C6 witness: identifier 42 on an empty backend state. -/
theorem c6_not_found_witness :
    (syncGetItem newsHooks ([] : List Row) (PyScalar.int 42)).outcome
      = Except.error (PyException.itemNotFound "NewsTable" (PyScalar.int 42)) ∧
    (syncExists newsHooks ([] : List Row) (PyScalar.int 42)).outcome = Except.ok false :=
  ⟨(c6_not_found newsHooks idBackend [] (PyScalar.int 42) ([] : Row) rfl).1,
    (c6_not_found newsHooks idBackend [] (PyScalar.int 42) ([] : Row) rfl).2.2.2.2.2.2.1⟩

/-- C7: when the identifier filter matches exactly one record and the commit
succeeds, delete of both flavors returns the conversion of the record as
fetched before the deletion, and the backend state afterwards no longer
contains that record. -/
theorem c7_delete_returns_pre_deletion {M C U : Type} (hooks : RepoHooks M C U)
    (backend : BackendBehavior) (db : List Row) (itemId : PyScalar) (row : Row)
    (hfetch : runQuery db (hooks.applyIdFilterCondition {} itemId) = [row])
    (hcommit : backend.commitResult = Option.none) :
    (syncDelete hooks backend db itemId).outcome
      = Except.ok (hooks.convertDbItemToModel row) ∧
    (syncDelete hooks backend db itemId).db = db.erase row ∧
    (asyncDelete hooks backend db itemId).outcome
      = Except.ok (hooks.convertDbItemToModel row) ∧
    (asyncDelete hooks backend db itemId).db = db.erase row := by
  refine ⟨?_, ?_, ?_, ?_⟩ <;> simp [syncDelete, asyncDelete, hfetch, hcommit]

/-- C7 witness: deleting id 1 from a one-record backend returns the record's
pre-deletion attribute values and leaves an empty backend. -/
theorem c7_delete_returns_pre_deletion_witness :
    (syncDelete newsHooks idBackend [[("id", PyScalar.int 1), ("title", PyScalar.str "Title 1")]]
        (PyScalar.int 1)).outcome
      = Except.ok [("id", PyScalar.int 1), ("title", PyScalar.str "Title 1")] ∧
    (syncDelete newsHooks idBackend [[("id", PyScalar.int 1), ("title", PyScalar.str "Title 1")]]
        (PyScalar.int 1)).db = [] :=
  ⟨(c7_delete_returns_pre_deletion newsHooks idBackend
      [[("id", PyScalar.int 1), ("title", PyScalar.str "Title 1")]] (PyScalar.int 1)
      [("id", PyScalar.int 1), ("title", PyScalar.str "Title 1")] rfl rfl).1,
    (c7_delete_returns_pre_deletion newsHooks idBackend
      [[("id", PyScalar.int 1), ("title", PyScalar.str "Title 1")]] (PyScalar.int 1)
      [("id", PyScalar.int 1), ("title", PyScalar.str "Title 1")] rfl rfl).2.1⟩

/-- C10: whenever the lowercased backend error detail contains a uniqueness
marker, classification yields UniqueViolation in both flavors even when a
relation marker is also present: the uniqueness check comes first and takes
precedence. -/
theorem c10_unique_marker_precedence (msg modelClass action : String)
    (hu : strContains (strLower msg) "unique" = true ∨
      strContains (strLower msg) "duplicate" = true)
    (hr : strContains (strLower msg) "foreign" = true ∨
      strContains (strLower msg) "reference" = true) :
    checkViolations msg = Violation.unique ∧
    asyncCheckViolations msg = Violation.unique ∧
    violationException modelClass action msg = PyException.uniqueViolation modelClass action ∧
    asyncViolationException modelClass action msg
      = PyException.uniqueViolation modelClass action := by
  have hcu : (strContains (strLower msg) "unique"
      || strContains (strLower msg) "duplicate") = true := by
    rcases hu with h | h <;> simp [h]
  refine ⟨?_, ?_, ?_, ?_⟩ <;>
    simp [checkViolations, asyncCheckViolations, violationException, asyncViolationException, hcu]

/-- C10 witness: a message with both a duplicate marker and a foreign-key
marker classifies as a unique violation. -/
theorem c10_unique_marker_precedence_witness :
    checkViolations "Duplicate key breaks Foreign key" = Violation.unique :=
  (c10_unique_marker_precedence "Duplicate key breaks Foreign key" "News" "create"
    (Or.inr (by decide)) (Or.inl (by decide))).1

end AbstractRepoSqlAlchemy
